import Mathlib

/-! Verification development for a Telegram media-export bot (single file
`main.py`).  The definitions below are a shallow embedding of the source:
pure helpers become Lean functions, the stateful handlers become functions
from an explicit bot state (the global tables `USER_STATES`,
`ACTIVE_CLIENTS`, the Mongo `sessions` collection and `PROGRESS_MESSAGES`)
to a result carrying the new state, the list of outbound effects, and an
optional uncaught exception.  External-platform behaviour (Telethon calls,
media downloads, clock reads) is abstracted as an oracle record
`Platform`. -/

namespace LuffySave

/-- An in-memory Telethon client connection, opaque to the bot logic;
modelled as a numeric handle. -/
abbrev Client := Nat

/-- An attribute of a Telegram document, as inspected by `get_filename`
(src/main.py:75-82): either a `DocumentAttributeFilename` carrying a name,
or any other attribute. -/
inductive DocAttr
  | filename (name : String)
  | otherAttr
  deriving DecidableEq

/-- The shape of a media attachment as dispatched on by `get_filename`:
`MessageMediaDocument` (with its attribute list), `MessageMediaPhoto`, or
anything else. -/
inductive Media
  | document (attrs : List DocAttr)
  | photo
  | otherMedia
  deriving DecidableEq

/-- A chat message as seen by the download pipeline: its Telegram message
id and its optional media attachment (`msg.media`). -/
structure Message where
  id : Nat
  media : Option Media
  deriving DecidableEq

/-- Embedding of `get_filename` (src/main.py:75-82).  For a document the
first `DocumentAttributeFilename` attribute wins; a document without one
falls through to the generic `file_<timestamp>` return at line 82, exactly
as in the source.  The `datetime.now().timestamp()` reads are abstracted
as the string argument `ts`. -/
def get_filename (media : Option Media) (ts : String) : String :=
  match media with
  | some (Media.document attrs) =>
    match attrs.findSome? (fun a =>
        match a with
        | DocAttr.filename n => some n
        | DocAttr.otherAttr => none) with
    | some n => n
    | none => "file_" ++ ts
  | some Media.photo => "photo_" ++ ts ++ ".jpg"
  | _ => "file_" ++ ts

/-- The literal link pattern text `https://t.me/c/` used both by the
regex of `parse_tg_link` (src/main.py:42) and by the `startswith` guard
of the link branch (src/main.py:146). -/
def linkMark : String := "https://t.me/c/"

/-- Digits-to-number accumulation, base 10. -/
def digitsToNat (l : List Char) : Nat :=
  l.foldl (fun acc c => acc * 10 + (c.toNat - 48)) 0

/-- Embedding of `parse_tg_link` (src/main.py:41-46) on the character
list of the link: `re.match` the pattern
`https://t\.me/c/(\d+)/(\d+)` against the start of the string (trailing
characters are allowed, as with `re.match`), returning the two numeric
groups, or `(None, None)` on no match.  String manipulation is carried
out on character lists throughout the embedding. -/
def parse_tg_link_chars (l : List Char) : Option Nat × Option Nat :=
  if linkMark.data.isPrefixOf l then
    let rest := l.drop linkMark.data.length
    let d1 := rest.takeWhile Char.isDigit
    let r1 := rest.dropWhile Char.isDigit
    if d1.isEmpty then (none, none)
    else
      match r1 with
      | '/' :: r2 =>
        let d2 := r2.takeWhile Char.isDigit
        if d2.isEmpty then (none, none)
        else (some (digitsToNat d1), some (digitsToNat d2))
      | _ => (none, none)
  else (none, none)

/-- `parse_tg_link` on a string value. -/
def parse_tg_link (link : String) : Option Nat × Option Nat :=
  parse_tg_link_chars link.data

/-- Python's `str.strip()` on a character list: leading and trailing
whitespace removed. -/
def stripChars (l : List Char) : List Char :=
  ((l.dropWhile Char.isWhitespace).reverse.dropWhile Char.isWhitespace).reverse

/-- Python's `split("\n")` on a character list: split at every newline,
keeping empty segments. -/
def splitNL : List Char → List (List Char)
  | [] => [[]]
  | c :: rest =>
    match splitNL rest with
    | [] => [[]]
    | h :: t => if c = '\n' then [] :: h :: t else (c :: h) :: t

/-- Round a rational to the nearest integer, ties to even: the rounding
used by Python's float formatting (`%.1f`, `{:.1f}`) at the last kept
digit.  The embedding works over exact rationals; every concrete value a
claim evaluates is exactly representable. -/
def rhe (q : ℚ) : ℤ :=
  let f := q.floor
  let r := q - (f : ℚ)
  if r < 1 / 2 then f
  else if 1 / 2 < r then f + 1
  else if f % 2 = 0 then f else f + 1

/-- Fixed-point rendering with one decimal digit, the `%.1f` / `{:.1f}`
format applied by `progress_callback` and by `humanize.naturalsize`. -/
def fmt1 (q : ℚ) : String :=
  let n := rhe (q * 10)
  let m := n.natAbs
  (if n < 0 then "-" else "") ++ toString (m / 10) ++ "." ++ toString (m % 10)

/-- Truncation toward zero, the `%d` conversion applied by
`humanize.naturalsize` to values below 1000. -/
def truncQ (q : ℚ) : ℤ :=
  if q < 0 then -(-q).floor else q.floor

/-- Embedding of `humanize.naturalsize(value)` with its default
arguments (decimal suffixes, base 1000, format `%.1f`), called at
src/main.py:52 and 57.  The library's suffix loop is unrolled: the final
branch covers both the last tested unit and the fall-through return after
the loop, which use the same unit and suffix. -/
def naturalsize (v : ℚ) : String :=
  let a := if v < 0 then -v else v
  if a = 1 then toString (truncQ v) ++ " Byte"
  else if a < 1000 then toString (truncQ v) ++ " Bytes"
  else if a < 10 ^ 6 then fmt1 (1000 * v / 10 ^ 6) ++ " kB"
  else if a < 10 ^ 9 then fmt1 (1000 * v / 10 ^ 9) ++ " MB"
  else if a < 10 ^ 12 then fmt1 (1000 * v / 10 ^ 12) ++ " GB"
  else if a < 10 ^ 15 then fmt1 (1000 * v / 10 ^ 15) ++ " TB"
  else if a < 10 ^ 18 then fmt1 (1000 * v / 10 ^ 18) ++ " PB"
  else if a < 10 ^ 21 then fmt1 (1000 * v / 10 ^ 21) ++ " EB"
  else if a < 10 ^ 24 then fmt1 (1000 * v / 10 ^ 24) ++ " ZB"
  else fmt1 (1000 * v / 10 ^ 27) ++ " YB"

/-- Embedding of the `speed` expression of `progress_callback`
(src/main.py:52): a human-readable rate when the elapsed time is
positive, the empty string otherwise.  This division is guarded by the
conditional, unlike the percentage division. -/
def speed_str (current : Nat) (elapsedSecs : ℚ) : String :=
  if 0 < elapsedSecs then naturalsize ((current : ℚ) / elapsedSecs) ++ "/s" else ""

/-- The f-string of `progress_callback` (src/main.py:54-59) assembled
from its three computed components. -/
def progress_text (pct size speed : String) : String :=
  "📥 Downloading...\nProgress: " ++ pct ++ "%\nSize: " ++ size ++ "\nSpeed: " ++ speed

/-- Embedding of the computation part of `progress_callback`
(src/main.py:49-59): the percentage `current / total * 100` (line 50) is
evaluated first and is unguarded, so `total = 0` raises
`ZeroDivisionError` (the error branch of the embedding); otherwise the
rendered status text is produced.  The message send/edit plumbing of
lines 61-72 is outside the scope of the numeric claims and is not
embedded here. -/
def progress_callback_msg (current total : Nat) (elapsedSecs : ℚ) : Except String String :=
  if total = 0 then Except.error "ZeroDivisionError: division by zero"
  else
    Except.ok (progress_text
      (fmt1 ((current : ℚ) / (total : ℚ) * 100))
      (naturalsize (total : ℚ))
      (speed_str current elapsedSecs))

/-- A value held in `USER_STATES` (src/main.py:36): the string
`"AWAITING_PHONE"`, the dict `{phone, sent_code, client}` built at
src/main.py:119-123 (the stored `sent_code` handle is never read again
and is omitted), or the `None` stored on successful login
(src/main.py:141). -/
inductive LoginState
  | awaitingPhone
  | awaitingCode (phone : String) (client : Client)
  | cleared
  deriving DecidableEq

/-- One outbound effect of a handler: a reply to the incoming message, a
bot-API message operation, a Mongo `sessions` write, or a live-connection
table operation. -/
inductive Event
  | reply (text : String)
  | deleteMessage (chatId : Nat) (messageId : Nat)
  | sendDocument (chatId : Nat) (path : String) (filename : String)
  | dbUpsert (userId : Nat) (session : String)
  | dbDelete (userId : Nat)
  | clientDisconnect (userId : Nat)
  | register (userId : Nat)
  deriving DecidableEq

/-- The mutable global state of the bot process: `USER_STATES`,
`ACTIVE_CLIENTS`, the Mongo `sessions` collection (keyed by `user_id`),
and `PROGRESS_MESSAGES` (src/main.py:31-38).  Each table is an
association list keyed by user id.  A `PROGRESS_MESSAGES` entry is the
current progress-message id; the source's distinction between an absent
key and a stored `None` is conflated (the code only reads the table
through truthiness tests, which treat both alike). -/
structure BotState where
  userStates : List (Nat × LoginState)
  activeClients : List (Nat × Client)
  sessions : List (Nat × String)
  progressMessages : List (Nat × Nat)
  deriving DecidableEq

/-- Result of running one handler: the state afterwards, the outbound
effects in order, and the exception propagating out of the handler if one
escaped uncaught (`none` when the handler returned normally). -/
structure HandlerResult where
  state : BotState
  events : List Event
  exn : Option String
  deriving DecidableEq

/-- Oracle for everything outside the bot process: Telethon connection
and sign-in outcomes, chat contents, per-message download outcomes,
clock reads, and the net effect of the concurrently running progress
tasks on the `PROGRESS_MESSAGES` entry of the requester.
`sendCode` bundles `TelegramClient(...)`, `connect()` and
`send_code_request` (src/main.py:116-118): either a connected client or
the raised exception.  `signIn` bundles `client.sign_in` and
`client.session.save()` (src/main.py:130-131): either the serialized
session string or the raised exception.  `chats c` is the full message
list of chat `c` in chronological (oldest-first, ascending-id) order.
`download i` is the outcome of `client.download_media` for message `i`:
a file path or the raised error.  `now i` is the timestamp string read
while processing message `i`.  `progressAfter i` is the
`PROGRESS_MESSAGES` entry for the requester once the download of message
`i` has finished (set by the `progress_callback` tasks spawned at
src/main.py:173-175, which run concurrently with the download). -/
structure Platform where
  sendCode : String → Except String Client
  signIn : Client → String → String → Except String String
  chats : Nat → List Message
  download : Nat → Except String String
  now : Nat → String
  progressAfter : Nat → Option Nat

/-- Insert-or-update-by-key on an association list. -/
def setKey {β : Type} (k : Nat) (v : β) (l : List (Nat × β)) : List (Nat × β) :=
  (k, v) :: l.filter (fun p => p.1 != k)

/-- Delete-by-key on an association list. -/
def delKey {β : Type} (k : Nat) (l : List (Nat × β)) : List (Nat × β) :=
  l.filter (fun p => p.1 != k)

/-- Embedding of the Telethon call
`client.iter_messages(chat, min_id=a, max_id=b)` (src/main.py:161).
Modelled from the Telethon client API, which is external to this
repository: both `min_id` and `max_id` are exclusive bounds (messages
with an id lower than *or equal to* `min_id`, or higher than *or equal
to* `max_id`, are excluded), and messages are yielded newest-first.
Given the chat in chronological order, the enumeration is the reversed
in-range sublist. -/
def iter_messages (chat : List Message) (minId maxId : Nat) : List Message :=
  (chat.filter (fun m => decide (minId < m.id) && decide (m.id < maxId))).reverse

/-- The `messages` list built at src/main.py:160-163: the enumeration of
`iter_messages`, keeping only messages with a media attachment, in
enumeration (newest-first) order. -/
def matched_messages (chat : List Message) (minId maxId : Nat) : List Message :=
  (iter_messages chat minId maxId).filter (fun m => m.media.isSome)

/-- The order in which the download loop visits items:
`for msg in reversed(messages)` (src/main.py:165). -/
def delivery_order (chat : List Message) (minId maxId : Nat) : List Message :=
  (matched_messages chat minId maxId).reverse

/-- The outbound effects of one iteration of the download loop
(src/main.py:165-193).  The filename is computed before the `try`; on a
successful download the in-flight progress message is deleted when the
truthiness test `PROGRESS_MESSAGES.get(user_id)` passes (a stored id of
`0` would be falsy, hence the `getD 0` test), then the completion notice
and the file are sent; on a download error the single failure notice
naming the file and the error is sent and the loop moves on.  The `try`
of the source also covers the bot-API sends of lines 178-190; the
embedding treats those sends as succeeding, which is the scope of the
claims. -/
def process_item (pf : Platform) (uid : Nat) (m : Message) : List Event :=
  let filename := get_filename m.media (pf.now m.id)
  let pm := pf.progressAfter m.id
  match pf.download m.id with
  | Except.ok path =>
    (if pm.getD 0 != 0 then [Event.deleteMessage uid (pm.getD 0)] else [])
      ++ [Event.reply ("✅ Saved: " ++ filename), Event.sendDocument uid path filename]
  | Except.error e =>
    [Event.reply ("❌ Failed to download " ++ filename ++ ": " ++ e)]

/-- Outbound effects of the whole download loop, item by item in order. -/
def download_loop_events (pf : Platform) (uid : Nat) : List Message → List Event
  | [] => []
  | m :: rest => process_item pf uid m ++ download_loop_events pf uid rest

/-- The `PROGRESS_MESSAGES` entry for the requester once one loop
iteration finished: the iteration first stores `None` (src/main.py:168),
the progress tasks then leave `progressAfter`, and a successful download
whose truthy progress message was deleted removes the key
(src/main.py:178-183). -/
def entry_after (pf : Platform) (m : Message) : Option Nat :=
  let pm := pf.progressAfter m.id
  match pf.download m.id with
  | Except.ok _ => if pm.getD 0 != 0 then none else pm
  | Except.error _ => pm

/-- `PROGRESS_MESSAGES` after the whole download loop. -/
def download_loop_table (pf : Platform) (uid : Nat) : List Message → List (Nat × Nat) → List (Nat × Nat)
  | [], tbl => tbl
  | m :: rest, tbl =>
    download_loop_table pf uid rest
      (match entry_after pf m with
       | none => delKey uid tbl
       | some x => setKey uid x tbl)

/-- Embedding of the message-link branch of `handle_message`
(src/main.py:146-193): split the stripped text on newlines and reject
any line count other than two; parse both links (`re.match`, the chat
group of the second link is discarded via `_`); require a live client;
enumerate, filter and download.  When a parsed id is missing (`None`
from `parse_tg_link`), the `None` flows into the Telethon call and
raises there, modelled as an uncaught exception. -/
def link_branch (pf : Platform) (uid : Nat) (text : String) (st : BotState) : HandlerResult :=
  match splitNL (stripChars text.data) with
  | [l1, l2] =>
    let p1 := parse_tg_link_chars l1
    let p2 := parse_tg_link_chars l2
    match st.activeClients.lookup uid with
    | none => ⟨st, [Event.reply "❌ Not logged in! Use /login first."], none⟩
    | some _ =>
      match p1.1, p1.2, p2.2 with
      | some chatId, some startId, some endId =>
        let msgs := matched_messages (pf.chats chatId) startId endId
        ⟨{ st with progressMessages := download_loop_table pf uid msgs.reverse st.progressMessages },
          download_loop_events pf uid msgs.reverse, none⟩
      | _, _, _ => ⟨st, [], some "TypeError: malformed link ids reached the platform call"⟩
  | _ => ⟨st, [Event.reply "❌ Send exactly 2 message links (start and end)."], none⟩

/-- Embedding of `handle_message` (src/main.py:106-193).  Non-admin
senders return immediately (line 108).  The `AWAITING_PHONE` branch has
no exception handling in the source: a failing connect/code request
escapes the handler with the state and effect list untouched.  The
OTP branch catches every sign-in exception and only replies with the
error text, leaving `USER_STATES` unchanged; on success the session is
upserted, the client registered, the success reply sent and the state
cleared, in that order (lines 130-141). -/
def handle_message (admins : List Nat) (pf : Platform) (uid : Nat) (text : String)
    (st : BotState) : HandlerResult :=
  if uid ∈ admins then
    match st.userStates.lookup uid with
    | some LoginState.awaitingPhone =>
      match pf.sendCode text with
      | Except.error e => ⟨st, [], some e⟩
      | Except.ok c =>
        ⟨{ st with userStates := setKey uid (LoginState.awaitingCode text c) st.userStates },
          [Event.reply "🔒 Enter the Telegram OTP you received:"], none⟩
    | some (LoginState.awaitingCode phone c) =>
      match pf.signIn c phone text with
      | Except.ok sessionString =>
        ⟨{ st with sessions := setKey uid sessionString st.sessions,
                   activeClients := setKey uid c st.activeClients,
                   userStates := setKey uid LoginState.cleared st.userStates },
          [Event.dbUpsert uid sessionString, Event.register uid,
           Event.reply "✅ Login successful!"], none⟩
      | Except.error e => ⟨st, [Event.reply ("❌ Error: " ++ e)], none⟩
    | _ =>
      if linkMark.data.isPrefixOf text.data then link_branch pf uid text st
      else ⟨st, [], none⟩
  else ⟨st, [], none⟩

/-- Embedding of the `/start` handler (src/main.py:85-88). -/
def start (admins : List Nat) (uid : Nat) (st : BotState) : HandlerResult :=
  if uid ∈ admins then ⟨st, [Event.reply "🔑 Welcome! Use /login to start."], none⟩
  else ⟨st, [], none⟩

/-- Embedding of the `/login` handler (src/main.py:90-96). -/
def login (admins : List Nat) (uid : Nat) (st : BotState) : HandlerResult :=
  if uid ∈ admins then
    ⟨{ st with userStates := setKey uid LoginState.awaitingPhone st.userStates },
      [Event.reply "📱 Please send your phone number (e.g., +1234567890):"], none⟩
  else ⟨st, [], none⟩

/-- Embedding of the `/logout` handler (src/main.py:98-104).  Unlike the
other three handlers, the source performs no `ADMINS` membership check
here: any sender reaches the disconnect, the `sessions.delete_one`, and
the confirmation reply. -/
def logout (uid : Nat) (st : BotState) : HandlerResult :=
  match st.activeClients.lookup uid with
  | some _ =>
    ⟨{ st with activeClients := delKey uid st.activeClients,
               sessions := delKey uid st.sessions },
      [Event.clientDisconnect uid, Event.dbDelete uid, Event.reply "🔒 Session terminated."],
      none⟩
  | none =>
    ⟨{ st with sessions := delKey uid st.sessions },
      [Event.dbDelete uid, Event.reply "🔒 Session terminated."], none⟩

/-- The fixed text opening every per-item failure notice
(src/main.py:193). -/
def failMark : List Char := "❌ Failed to download ".data

/-- Whether an outbound event is a per-item failure notice: a reply whose
text opens with the failure text of src/main.py:193. -/
def isFailNotice (ev : Event) : Bool :=
  match ev with
  | Event.reply t => decide (failMark <+: t.data)
  | _ => false

/-! Concrete fixtures used by witnesses and counterexamples. -/

/-- An oracle whose platform calls fail: connecting raises a
`ConnectionError`, sign-in raises an expired-code error. -/
def pfErr : Platform :=
  { sendCode := fun _ => Except.error "ConnectionError: Cannot connect to host"
    signIn := fun _ _ _ => Except.error "The confirmation code has expired."
    chats := fun _ => []
    download := fun _ => Except.error "unused"
    now := fun _ => "0"
    progressAfter := fun _ => none }

/-- An oracle whose platform calls succeed: chat 111 holds one photo
message with id 6, every download yields a file path. -/
def pfOk : Platform :=
  { sendCode := fun _ => Except.ok 7
    signIn := fun _ _ _ => Except.ok "sess77"
    chats := fun c => if c = 111 then [⟨6, some Media.photo⟩] else []
    download := fun i => Except.ok ("/tmp/p" ++ toString i)
    now := fun _ => "1700000000.0"
    progressAfter := fun _ => none }

/-- An oracle where downloading message 2 fails and every other download
succeeds. -/
def pfMix : Platform :=
  { sendCode := fun _ => Except.error "unused"
    signIn := fun _ _ _ => Except.error "unused"
    chats := fun _ => []
    download := fun i => if i = 2 then Except.error "boom"
                         else Except.ok ("/tmp/p" ++ toString i)
    now := fun i => toString i
    progressAfter := fun _ => none }

/-- The empty bot state. -/
def stEmpty : BotState := ⟨[], [], [], []⟩

/-- A state where user 1 is mid-login awaiting the phone number. -/
def stPhone1 : BotState := ⟨[(1, LoginState.awaitingPhone)], [], [], []⟩

/-- A state where user 1 is mid-login awaiting the OTP on client 7. -/
def stCode1 : BotState := ⟨[(1, LoginState.awaitingCode "+15551234567" 7)], [], [], []⟩

/-- A state where user 1 holds live client 5 and no login is pending. -/
def stLinked : BotState := ⟨[], [(1, 5)], [], []⟩

/-- A three-message chat whose media messages carry ids 5, 6 and 7. -/
def demoChat : List Message :=
  [⟨5, some Media.photo⟩, ⟨6, some Media.photo⟩, ⟨7, some Media.photo⟩]

/-! Helper lemmas about failure notices and the download loop. -/

/-- A completion notice is never a failure notice, whatever the
filename: the two texts differ at their first character. -/
theorem savedNotice_notFail (f : String) :
    isFailNotice (Event.reply ("✅ Saved: " ++ f)) = false := by
  simp only [isFailNotice]
  rw [decide_eq_false_iff_not]
  intro h
  rw [String.data_append] at h
  obtain ⟨t, ht⟩ := h
  rw [show failMark = '❌' :: " Failed to download ".data from rfl,
    show "✅ Saved: ".data = '✅' :: " Saved: ".data from rfl,
    List.cons_append] at ht
  injection ht with h1 _
  exact absurd h1 (by decide)

/-- A failure notice is recognized as one, whatever the filename and the
error text. -/
theorem failNotice_isFail (f e : String) :
    isFailNotice (Event.reply ("❌ Failed to download " ++ f ++ ": " ++ e)) = true := by
  simp only [isFailNotice]
  rw [decide_eq_true_eq]
  have h : ("❌ Failed to download " ++ f ++ ": " ++ e).data
      = failMark ++ (f.data ++ (": ".data ++ e.data)) := by
    simp [String.data_append, failMark, List.append_assoc]
  rw [h]
  exact List.prefix_append _ _

/-- A file-send effect is not a failure notice. -/
theorem sendDoc_notFail (c : Nat) (p f : String) :
    isFailNotice (Event.sendDocument c p f) = false := rfl

/-- A progress-message deletion is not a failure notice. -/
theorem delMsg_notFail (c m : Nat) :
    isFailNotice (Event.deleteMessage c m) = false := rfl

/-- A successfully downloaded item contributes no failure notice. -/
theorem countP_process_item_ok (pf : Platform) (uid : Nat) (m : Message) (p : String)
    (h : pf.download m.id = Except.ok p) :
    (process_item pf uid m).countP isFailNotice = 0 := by
  simp only [process_item, h]
  by_cases hpm : ((pf.progressAfter m.id).getD 0 != 0) = true <;>
    simp [hpm, List.countP_append, List.countP_cons, savedNotice_notFail,
      sendDoc_notFail, delMsg_notFail]

/-- A failed item contributes exactly one failure notice. -/
theorem countP_process_item_err (pf : Platform) (uid : Nat) (m : Message) (e : String)
    (h : pf.download m.id = Except.error e) :
    (process_item pf uid m).countP isFailNotice = 1 := by
  simp [process_item, h, List.countP_cons, failNotice_isFail]

/-- The loop's effect list distributes over list append. -/
theorem download_loop_events_append (pf : Platform) (uid : Nat) (l1 l2 : List Message) :
    download_loop_events pf uid (l1 ++ l2)
      = download_loop_events pf uid l1 ++ download_loop_events pf uid l2 := by
  induction l1 with
  | nil => simp [download_loop_events]
  | cons m rest ih => simp [download_loop_events, ih]

/-- A batch of successful items produces no failure notice. -/
theorem countP_download_loop_ok (pf : Platform) (uid : Nat) (l : List Message)
    (h : ∀ m ∈ l, ∃ p, pf.download m.id = Except.ok p) :
    (download_loop_events pf uid l).countP isFailNotice = 0 := by
  induction l with
  | nil => simp [download_loop_events]
  | cons m rest ih =>
    obtain ⟨p, hp⟩ := h m (by simp)
    simp [download_loop_events, List.countP_append,
      countP_process_item_ok pf uid m p hp, ih (fun x hx => h x (by simp [hx]))]

/-- Every effect of one processed item appears among the loop's
effects. -/
theorem mem_download_loop_events (pf : Platform) (uid : Nat) (l : List Message)
    (m : Message) (x : Event) (hm : m ∈ l) (hx : x ∈ process_item pf uid m) :
    x ∈ download_loop_events pf uid l := by
  induction l with
  | nil => cases hm
  | cons a rest ih =>
    simp only [download_loop_events, List.mem_append]
    rcases List.mem_cons.mp hm with h | h
    · exact Or.inl (h ▸ hx)
    · exact Or.inr (ih h)

/-- C1: in a batch where one item's download raises an error and every
other item downloads successfully, the loop emits exactly one failure
notice, that notice names the failing item's filename and the error
detail, and every other item of the batch is still delivered to the
requester (its file-send effect occurs); the failure aborts nothing. -/
theorem C1_item_failure_isolation (pf : Platform) (uid : Nat)
    (pre post : List Message) (bad : Message) (e : String)
    (hpre : ∀ m ∈ pre, ∃ p, pf.download m.id = Except.ok p)
    (hpost : ∀ m ∈ post, ∃ p, pf.download m.id = Except.ok p)
    (hbad : pf.download bad.id = Except.error e) :
    (download_loop_events pf uid (pre ++ bad :: post)).countP isFailNotice = 1
    ∧ Event.reply ("❌ Failed to download "
        ++ get_filename bad.media (pf.now bad.id) ++ ": " ++ e)
        ∈ download_loop_events pf uid (pre ++ bad :: post)
    ∧ ∀ m ∈ pre ++ post, ∃ p, pf.download m.id = Except.ok p ∧
        Event.sendDocument uid p (get_filename m.media (pf.now m.id))
          ∈ download_loop_events pf uid (pre ++ bad :: post) := by
  refine ⟨?_, ?_, ?_⟩
  · rw [download_loop_events_append]
    simp only [download_loop_events, List.countP_append,
      countP_download_loop_ok pf uid pre hpre,
      countP_download_loop_ok pf uid post hpost,
      countP_process_item_err pf uid bad e hbad]
  · refine mem_download_loop_events pf uid _ bad _ (by simp) ?_
    simp [process_item, hbad]
  · intro m hm
    rcases List.mem_append.mp hm with h | h
    · obtain ⟨p, hp⟩ := hpre m h
      refine ⟨p, hp, mem_download_loop_events pf uid _ m _ (by simp [h]) ?_⟩
      simp [process_item, hp]
    · obtain ⟨p, hp⟩ := hpost m h
      refine ⟨p, hp, mem_download_loop_events pf uid _ m _ (by simp [h]) ?_⟩
      simp [process_item, hp]

/-- Witness for C1: a three-item batch over `pfMix` where item 2 fails
and items 1 and 3 are delivered. -/
theorem C1_item_failure_isolation_witness :
    (download_loop_events pfMix 9 ([⟨1, none⟩] ++ ⟨2, none⟩ :: [⟨3, none⟩])).countP isFailNotice = 1
    ∧ Event.reply ("❌ Failed to download "
        ++ get_filename (Message.mk 2 none).media (pfMix.now (Message.mk 2 none).id) ++ ": " ++ "boom")
        ∈ download_loop_events pfMix 9 ([⟨1, none⟩] ++ ⟨2, none⟩ :: [⟨3, none⟩])
    ∧ ∀ m ∈ [(⟨1, none⟩ : Message)] ++ [(⟨3, none⟩ : Message)],
        ∃ p, pfMix.download m.id = Except.ok p ∧
          Event.sendDocument 9 p (get_filename m.media (pfMix.now m.id))
            ∈ download_loop_events pfMix 9 ([⟨1, none⟩] ++ ⟨2, none⟩ :: [⟨3, none⟩]) :=
  C1_item_failure_isolation pfMix 9 [⟨1, none⟩] [⟨3, none⟩] ⟨2, none⟩ "boom"
    (by intro m hm; simp at hm; subst hm; exact ⟨"/tmp/p1", rfl⟩)
    (by intro m hm; simp at hm; subst hm; exact ⟨"/tmp/p3", rfl⟩)
    rfl

/-- C2: for a chat given in chronological (ascending-id) order — the
platform enumerates it newest-first, see `iter_messages` — the download
loop visits the matched media messages as the reversed enumeration list,
and hence delivers them in strictly increasing original order, oldest
first. -/
theorem C2_delivery_oldest_first (chat : List Message) (a b : Nat)
    (hchat : List.Pairwise (fun x y => x.id < y.id) chat) :
    delivery_order chat a b
      = ((iter_messages chat a b).filter (fun m => m.media.isSome)).reverse
    ∧ List.Pairwise (fun x y : Message => x.id < y.id) (delivery_order chat a b) := by
  refine ⟨rfl, ?_⟩
  have h1 : delivery_order chat a b
      = (chat.filter (fun m => decide (a < m.id) && decide (m.id < b))).filter
          (fun m => m.media.isSome) := by
    simp [delivery_order, matched_messages, iter_messages, List.filter_reverse,
      List.reverse_reverse]
  rw [h1]
  exact List.Pairwise.sublist
    ((List.filter_sublist _).trans (List.filter_sublist _)) hchat

/-- Witness for C2 on a concrete three-message chat. -/
theorem C2_delivery_oldest_first_witness :
    delivery_order demoChat 4 8
      = ((iter_messages demoChat 4 8).filter (fun m => m.media.isSome)).reverse
    ∧ List.Pairwise (fun x y : Message => x.id < y.id) (delivery_order demoChat 4 8) :=
  C2_delivery_oldest_first demoChat 4 8 (by decide)

/-- C3: the messages selected for download are exactly the media-bearing
messages whose id lies strictly between the two link ids — both
endpoints are excluded, because the Telethon `min_id`/`max_id` arguments
used at src/main.py:161 are exclusive bounds.  On the concrete chat with
media messages 5, 6, 7 and links selecting start 5 and end 7, only
message 6 is selected. -/
theorem C3_range_bounds_exclusive :
    (∀ (chat : List Message) (a b : Nat) (m : Message),
        m ∈ matched_messages chat a b ↔
          m ∈ chat ∧ m.media.isSome = true ∧ a < m.id ∧ m.id < b)
    ∧ (matched_messages demoChat 5 7).map Message.id = [6] := by
  constructor
  · intro chat a b m
    simp only [matched_messages, iter_messages, List.mem_filter, List.mem_reverse,
      Bool.and_eq_true, decide_eq_true_eq]
    tauto
  · decide

/-! Evaluation lemmas for the rational renderers.  Rational arithmetic
does not reduce inside the kernel (its normalization recursion is
well-founded), so concrete values are evaluated by `norm_num` rewriting
instead of `decide`. -/

/-- Batteries' floor on `ℚ` agrees with the floor of the order
structure, definitionally. -/
theorem ratFloor_eq (q : ℚ) : q.floor = ⌊q⌋ := rfl

/-- `rhe` evaluates to the floor when the fractional part lies strictly
below one half. -/
theorem rhe_eq_of_lt (q : ℚ) (z : ℤ) (hf : q.floor = z)
    (hr : q - (z : ℚ) < 1 / 2) : rhe q = z := by
  simp only [rhe, hf]
  rw [if_pos hr]

/-- Unfold `fmt1` through a computed rounding value. -/
theorem fmt1_eval (q : ℚ) (z : ℤ) (h : rhe (q * 10) = z) :
    fmt1 q = (if z < 0 then "-" else "")
      ++ toString (z.natAbs / 10) ++ "." ++ toString (z.natAbs % 10) := by
  simp only [fmt1, h]

/-- The `kB` branch of `naturalsize`. -/
theorem naturalsize_kB (v : ℚ) (h0 : ¬v < 0) (h1 : v ≠ 1) (h2 : ¬v < 1000)
    (h3 : v < 10 ^ 6) :
    naturalsize v = fmt1 (1000 * v / 10 ^ 6) ++ " kB" := by
  simp only [naturalsize]
  rw [if_neg h0, if_neg h1, if_neg h2, if_pos h3]

/-- The `MB` branch of `naturalsize`. -/
theorem naturalsize_MB (v : ℚ) (h0 : ¬v < 0) (h1 : v ≠ 1) (h2 : ¬v < 1000)
    (h3 : ¬v < 10 ^ 6) (h4 : v < 10 ^ 9) :
    naturalsize v = fmt1 (1000 * v / 10 ^ 9) ++ " MB" := by
  simp only [naturalsize]
  rw [if_neg h0, if_neg h1, if_neg h2, if_neg h3, if_pos h4]

/-- The concrete percentage, 512000 of 1024000 bytes, renders as
`50.0`. -/
theorem fmt1_concrete_pct : fmt1 ((512000 : ℚ) / 1024000 * 100) = "50.0" := by
  rw [show (512000 : ℚ) / 1024000 * 100 = 50 by norm_num]
  rw [fmt1_eval 50 500 (rhe_eq_of_lt _ 500
    (by rw [show (50 : ℚ) * 10 = 500 by norm_num, ratFloor_eq]; norm_num)
    (by norm_num))]
  rfl

/-- The concrete rate value 256000 renders as `256.0 kB`. -/
theorem natsize_256000 : naturalsize (256000 : ℚ) = "256.0 kB" := by
  rw [naturalsize_kB 256000 (by norm_num) (by norm_num) (by norm_num) (by norm_num)]
  rw [show 1000 * (256000 : ℚ) / 10 ^ 6 = 256 by norm_num]
  rw [fmt1_eval 256 2560 (rhe_eq_of_lt _ 2560
    (by rw [show (256 : ℚ) * 10 = 2560 by norm_num, ratFloor_eq]; norm_num)
    (by norm_num))]
  rfl

/-- The concrete total 1024000 renders as `1.0 MB`. -/
theorem natsize_1024000 : naturalsize (1024000 : ℚ) = "1.0 MB" := by
  rw [naturalsize_MB 1024000 (by norm_num) (by norm_num) (by norm_num) (by norm_num)
    (by norm_num)]
  rw [show 1000 * (1024000 : ℚ) / 10 ^ 9 = 128 / 125 by norm_num]
  rw [fmt1_eval (128 / 125) 10 (rhe_eq_of_lt _ 10
    (by
      rw [show (128 / 125 : ℚ) * 10 = 256 / 25 by norm_num, ratFloor_eq,
        Int.floor_eq_iff]
      norm_num)
    (by norm_num))]
  rfl

/-- The concrete rate, 512000 bytes in 2 seconds, renders as
`256.0 kB/s`. -/
theorem speed_concrete : speed_str 512000 2 = "256.0 kB/s" := by
  simp only [speed_str]
  rw [if_pos (by norm_num : (0 : ℚ) < 2)]
  rw [show ((512000 : ℕ) : ℚ) / 2 = 256000 by norm_num]
  rw [natsize_256000]
  rfl

/-- C9: with a positive total, the rendered status text is built from
the exact percentage `current / total * 100` to one decimal place, the
human-readable total size, and the rate `current / elapsed` rendered
when the elapsed time is positive and empty otherwise; at the concrete
input 512000 of 1024000 bytes in 2 seconds the percentage renders as
`50.0%` and the rate as `256.0 kB/s`. -/
theorem C9_progress_rendering :
    (∀ (current total : Nat) (el : ℚ), 0 < total →
        progress_callback_msg current total el =
          Except.ok (progress_text (fmt1 ((current : ℚ) / (total : ℚ) * 100))
            (naturalsize (total : ℚ)) (speed_str current el)))
    ∧ (∀ (current : Nat) (el : ℚ), el ≤ 0 → speed_str current el = "")
    ∧ (∀ (current : Nat) (el : ℚ), 0 < el →
        speed_str current el = naturalsize ((current : ℚ) / el) ++ "/s")
    ∧ fmt1 ((512000 : ℚ) / 1024000 * 100) = "50.0"
    ∧ speed_str 512000 2 = "256.0 kB/s"
    ∧ progress_callback_msg 512000 1024000 2 =
        Except.ok "📥 Downloading...\nProgress: 50.0%\nSize: 1.0 MB\nSpeed: 256.0 kB/s" := by
  refine ⟨?_, ?_, ?_, ?_, ?_, ?_⟩
  · intro c t el ht
    simp [progress_callback_msg, ht.ne']
  · intro c el hle
    simp [speed_str, not_lt.mpr hle]
  · intro c el hlt
    simp [speed_str, hlt]
  · exact fmt1_concrete_pct
  · exact speed_concrete
  · simp only [progress_callback_msg, Nat.cast_ofNat]
    rw [if_neg (by decide : ¬((1024000 : ℕ) = 0))]
    rw [fmt1_concrete_pct, natsize_1024000, speed_concrete]
    rfl

/-- Witness for C9 at the concrete progress callback input. -/
theorem C9_progress_rendering_witness :
    progress_callback_msg 512000 1024000 2 =
      Except.ok (progress_text (fmt1 ((512000 : ℚ) / (1024000 : ℚ) * 100))
        (naturalsize (1024000 : ℚ)) (speed_str 512000 2))
    ∧ speed_str 512000 0 = "" :=
  ⟨C9_progress_rendering.1 512000 1024000 2 (by decide),
   C9_progress_rendering.2.1 512000 0 (by decide)⟩

/-- C10: the percentage division has no guard on the total, so a
callback with `totalBytes = 0` reaches the error branch
(`ZeroDivisionError`) for every byte count and elapsed time, while any
nonzero total renders normally; the elapsed-time division, by contrast,
is guarded, and a zero elapsed time yields the empty rate string rather
than an error. -/
theorem C10_total_division_unguarded :
    (∀ (current : Nat) (el : ℚ),
        progress_callback_msg current 0 el
          = Except.error "ZeroDivisionError: division by zero")
    ∧ (∀ (current total : Nat) (el : ℚ), total ≠ 0 →
        ∃ s, progress_callback_msg current total el = Except.ok s)
    ∧ (∀ current : Nat, speed_str current 0 = "") := by
  refine ⟨?_, ?_, ?_⟩
  · intro c el
    simp [progress_callback_msg]
  · intro c t el ht
    exact ⟨progress_text (fmt1 ((c : ℚ) / (t : ℚ) * 100)) (naturalsize (t : ℚ))
      (speed_str c el), by simp [progress_callback_msg, ht]⟩
  · intro c
    simp [speed_str]

/-- Witness for C10: a nonzero total renders without error. -/
theorem C10_total_division_unguarded_witness :
    ∃ s, progress_callback_msg 5 4 1 = Except.ok s :=
  C10_total_division_unguarded.2.1 5 4 1 (by decide)

/-- C4: `/start`, `/login` and the free-text handler are no-ops for any
sender outside the allow-list (no state change, no effect, no
exception), but the `/logout` handler performs no allow-list check at
all: a non-allow-listed sender (here 999, with any allow-list not
containing it) still triggers the session delete and receives the
confirmation reply, contradicting the claim for that handler. -/
theorem C4_logout_missing_allowlist_check :
    (∀ (admins : List Nat) (pf : Platform) (uid : Nat) (text : String) (st : BotState),
        uid ∉ admins →
          start admins uid st = ⟨st, [], none⟩
          ∧ login admins uid st = ⟨st, [], none⟩
          ∧ handle_message admins pf uid text st = ⟨st, [], none⟩)
    ∧ logout 999 stEmpty =
        ⟨stEmpty, [Event.dbDelete 999, Event.reply "🔒 Session terminated."], none⟩ := by
  constructor
  · intro admins pf uid text st h
    refine ⟨?_, ?_, ?_⟩ <;> simp [start, login, handle_message, h]
  · rfl

/-- Witness for C4: the authorized-only handlers are no-ops for user 2
against the allow-list `[1]`, while `/logout` still answers user 999. -/
theorem C4_logout_missing_allowlist_check_witness :
    (start [1] 2 stEmpty = ⟨stEmpty, [], none⟩
      ∧ login [1] 2 stEmpty = ⟨stEmpty, [], none⟩
      ∧ handle_message [1] pfErr 2 "hello" stEmpty = ⟨stEmpty, [], none⟩)
    ∧ logout 999 stEmpty =
        ⟨stEmpty, [Event.dbDelete 999, Event.reply "🔒 Session terminated."], none⟩ :=
  ⟨C4_logout_missing_allowlist_check.1 [1] pfErr 2 "hello" stEmpty (by decide),
   C4_logout_missing_allowlist_check.2⟩

/-- C5 counterexample: user 1 is awaiting the OTP and the sign-in raises
an expired-code error; the handler only replies with the error text and
leaves the state exactly as it was — still `AWAITING_CODE`, not cleared
— refuting the claim that the login state is reset to `NONE`. -/
theorem C5_claim_reset_refuted :
    handle_message [1] pfErr 1 "12345" stCode1 =
      ⟨stCode1, [Event.reply "❌ Error: The confirmation code has expired."], none⟩
    ∧ (handle_message [1] pfErr 1 "12345" stCode1).state.userStates.lookup 1
        = some (LoginState.awaitingCode "+15551234567" 7)
    ∧ (handle_message [1] pfErr 1 "12345" stCode1).state.userStates.lookup 1
        ≠ some LoginState.cleared := by
  refine ⟨rfl, rfl, by decide⟩

/-- C5 as amended: on any sign-in exception the platform's error message
is surfaced to the user, and the conversational state is left untouched
— the user remains in `AWAITING_CODE` with the pending phone and
connection retained (the source resets nothing in its `except`
branch). -/
theorem C5_signin_error_keeps_awaiting_code (admins : List Nat) (pf : Platform)
    (uid : Nat) (st : BotState) (phone otp e : String) (c : Client)
    (hadm : uid ∈ admins)
    (hstate : st.userStates.lookup uid = some (LoginState.awaitingCode phone c))
    (hsign : pf.signIn c phone otp = Except.error e) :
    handle_message admins pf uid otp st = ⟨st, [Event.reply ("❌ Error: " ++ e)], none⟩ := by
  simp [handle_message, hadm, hstate, hsign]

/-- Witness for the amended C5 at the concrete expired-code input. -/
theorem C5_signin_error_keeps_awaiting_code_witness :
    handle_message [1] pfErr 1 "12345" stCode1 =
      ⟨stCode1, [Event.reply ("❌ Error: " ++ "The confirmation code has expired.")], none⟩ :=
  C5_signin_error_keeps_awaiting_code [1] pfErr 1 stCode1 "+15551234567" "12345"
    "The confirmation code has expired." 7 (by decide) rfl rfl

/-- C6 counterexample: user 1 is awaiting the phone number and the
connect/code request raises a `ConnectionError`; the exception escapes
the handler uncaught, the state still holds `AWAITING_PHONE` (it is not
reset to `NONE`), and no message at all is sent to the user — refuting
the claimed reset and notification. -/
theorem C6_claim_reset_notify_refuted :
    handle_message [1] pfErr 1 "+15551234567" stPhone1 =
      ⟨stPhone1, [], some "ConnectionError: Cannot connect to host"⟩
    ∧ (handle_message [1] pfErr 1 "+15551234567" stPhone1).state.userStates.lookup 1
        = some LoginState.awaitingPhone
    ∧ (handle_message [1] pfErr 1 "+15551234567" stPhone1).events = [] :=
  ⟨rfl, rfl, rfl⟩

/-- C6 as amended: when opening the connection or requesting the code
fails, the exception (e.g. `ConnectionError`) propagates out of the
handler uncaught; the login state remains `AWAITING_PHONE` and no
notification is sent. -/
theorem C6_sendcode_error_uncaught (admins : List Nat) (pf : Platform)
    (uid : Nat) (st : BotState) (text e : String)
    (hadm : uid ∈ admins)
    (hstate : st.userStates.lookup uid = some LoginState.awaitingPhone)
    (hsend : pf.sendCode text = Except.error e) :
    handle_message admins pf uid text st = ⟨st, [], some e⟩ := by
  simp [handle_message, hadm, hstate, hsend]

/-- Witness for the amended C6 at the concrete unreachable-platform
input. -/
theorem C6_sendcode_error_uncaught_witness :
    handle_message [1] pfErr 1 "+15551234567" stPhone1 =
      ⟨stPhone1, [], some "ConnectionError: Cannot connect to host"⟩ :=
  C6_sendcode_error_uncaught [1] pfErr 1 stPhone1 "+15551234567"
    "ConnectionError: Cannot connect to host" (by decide) rfl rfl

/-- C7 counterexample: a logged-in user sends two well-formed links that
resolve to different chats (111 and 222).  The claim requires rejection
with the exactly-two-links error and no download; instead the pipeline
runs — it enumerates chat 111, downloads its one media message and
delivers it, ignoring the second link's chat entirely. -/
theorem C7_claim_same_chat_refuted :
    handle_message [1] pfOk 1 "https://t.me/c/111/5\nhttps://t.me/c/222/9" stLinked =
      ⟨stLinked, [Event.reply "✅ Saved: photo_1700000000.0.jpg",
        Event.sendDocument 1 "/tmp/p6" "photo_1700000000.0.jpg"], none⟩
    ∧ Event.reply "❌ Send exactly 2 message links (start and end)."
        ∉ (handle_message [1] pfOk 1 "https://t.me/c/111/5\nhttps://t.me/c/222/9" stLinked).events := by
  refine ⟨rfl, by decide⟩

/-- C7 as amended: the only input validation of the link branch is the
line count — any count other than two is rejected with the
exactly-two-links reply — and for two-line inputs the chat id of the
second link is discarded: two requests whose second links agree on the
message id produce identical results whatever the second link's chat
(no same-chat check, no per-link pattern rejection). -/
theorem C7_count_only_validation :
    (∀ (pf : Platform) (uid : Nat) (text : String) (st : BotState),
        (splitNL (stripChars text.data)).length ≠ 2 →
          link_branch pf uid text st =
            ⟨st, [Event.reply "❌ Send exactly 2 message links (start and end)."], none⟩)
    ∧ (∀ (pf : Platform) (uid : Nat) (text text' : String) (l1 l2 l2' : List Char)
        (st : BotState),
        splitNL (stripChars text.data) = [l1, l2] →
        splitNL (stripChars text'.data) = [l1, l2'] →
        (parse_tg_link_chars l2).2 = (parse_tg_link_chars l2').2 →
          link_branch pf uid text st = link_branch pf uid text' st) := by
  constructor
  · intro pf uid text st h
    rcases hsp : splitNL (stripChars text.data) with _ | ⟨a, _ | ⟨b, _ | ⟨c, r⟩⟩⟩
    · simp only [link_branch, hsp]
    · simp only [link_branch, hsp]
    · exact absurd (by rw [hsp]; rfl : (splitNL (stripChars text.data)).length = 2) h
    · simp only [link_branch, hsp]
  · intro pf uid text text' l1 l2 l2' st h1 h2 h3
    simp only [link_branch, h1, h2, h3]

/-- Witness for the amended C7: a one-line input is rejected with the
exactly-two-links reply, and changing only the second link's chat id
leaves the result unchanged. -/
theorem C7_count_only_validation_witness :
    link_branch pfOk 1 "https://t.me/c/111/5" stLinked =
      ⟨stLinked, [Event.reply "❌ Send exactly 2 message links (start and end)."], none⟩
    ∧ link_branch pfOk 1 "https://t.me/c/111/5\nhttps://t.me/c/222/9" stLinked =
        link_branch pfOk 1 "https://t.me/c/111/5\nhttps://t.me/c/333/9" stLinked :=
  ⟨C7_count_only_validation.1 pfOk 1 "https://t.me/c/111/5" stLinked (by decide),
   C7_count_only_validation.2 pfOk 1 "https://t.me/c/111/5\nhttps://t.me/c/222/9"
     "https://t.me/c/111/5\nhttps://t.me/c/333/9" "https://t.me/c/111/5".data
     "https://t.me/c/222/9".data "https://t.me/c/333/9".data stLinked (by decide)
     (by decide) (by decide)⟩

/-- C8: on a successful OTP sign-in the handler's effect trace is
exactly the session upsert, then the live-connection registration, then
the success reply; consequently every trace position at which the
connection has been exposed as registered already contains the persisted
credential. -/
theorem C8_persist_before_register (admins : List Nat) (pf : Platform)
    (uid : Nat) (st : BotState) (phone otp s : String) (c : Client)
    (hadm : uid ∈ admins)
    (hstate : st.userStates.lookup uid = some (LoginState.awaitingCode phone c))
    (hsign : pf.signIn c phone otp = Except.ok s) :
    (handle_message admins pf uid otp st).events =
      [Event.dbUpsert uid s, Event.register uid, Event.reply "✅ Login successful!"]
    ∧ ∀ n, Event.register uid ∈ ((handle_message admins pf uid otp st).events.take n) →
        Event.dbUpsert uid s ∈ ((handle_message admins pf uid otp st).events.take n) := by
  have hev : (handle_message admins pf uid otp st).events =
      [Event.dbUpsert uid s, Event.register uid, Event.reply "✅ Login successful!"] := by
    simp [handle_message, hadm, hstate, hsign]
  refine ⟨hev, ?_⟩
  intro n hn
  rw [hev] at hn ⊢
  cases n with
  | zero => simp at hn
  | succ k => simp [List.take_succ_cons]

/-- Witness for C8: the concrete successful login of user 1 over
`pfOk`. -/
theorem C8_persist_before_register_witness :
    (handle_message [1] pfOk 1 "12345" stCode1).events =
      [Event.dbUpsert 1 "sess77", Event.register 1, Event.reply "✅ Login successful!"]
    ∧ ∀ n, Event.register 1 ∈ ((handle_message [1] pfOk 1 "12345" stCode1).events.take n) →
        Event.dbUpsert 1 "sess77" ∈ ((handle_message [1] pfOk 1 "12345" stCode1).events.take n) :=
  C8_persist_before_register [1] pfOk 1 stCode1 "+15551234567" "12345" "sess77" 7
    (by decide) rfl rfl

end LuffySave
